import Mathlib

/-!
Verification development for the pg_activity core (snapshot-diff engine,
view-state machine, rendering/layout engine).

The Python modules are shallowly embedded as follows:
- Python floats become rationals, Python ints become Int/Nat;
- Python dicts (pid-indexed) become association lists in insertion order,
  looked up with List.lookup;
- fallible code returns Except (raising ValueError is Except.error);
- the per-worker wall-clock call time.time() is passed as an explicit
  parameter now : Q (one poll happens quickly, so a single instant is used
  for all workers of a cycle, matching the derivation of elapsed time in
  activities.update_processes_local);
- record fields that no claim touches (appname, database, user, client,
  state, query, wait, cpu and memory percentages, ...) are omitted from the
  embedded records; the control flow that moves them is kept.
-/

namespace PgActivity

/-- Truncation toward zero: what Python int() does to a float.
For nonnegative arguments this is the floor. -/
def pyInt (q : ℚ) : ℤ := if q < 0 then -(Int.floor (-q)) else Int.floor q

/-! ### keys.py -/

/-- keys.py: REFRESH_TIME_INCREASE = "+". -/
def REFRESH_TIME_INCREASE : String := "+"

/-- keys.py: REFRESH_TIME_DECREASE = "-". -/
def REFRESH_TIME_DECREASE : String := "-"

/-- keys.py constant SORTBY_CPU is referenced by handlers.py but absent from
the keys.py snapshot; its value "c" is pinned by the handlers.py doctest
(sort_key_for(k("c"), ...) gives SortKey.cpu). -/
def SORTBY_CPU : String := "c"

/-- keys.py constant SORTBY_MEM, value "m" pinned by the handlers.py doctest. -/
def SORTBY_MEM : String := "m"

/-- keys.py constant SORTBY_READ, value "r" pinned by the keys.py BINDINGS
entry ("r", "sort by READ/s desc. (activities)"). -/
def SORTBY_READ : String := "r"

/-- keys.py constant SORTBY_TIME, value "t" pinned by the handlers.py doctest. -/
def SORTBY_TIME : String := "t"

/-- keys.py constant SORTBY_WRITE, value "w" pinned by the handlers.py doctest. -/
def SORTBY_WRITE : String := "w"

/-- keys.py constant CHANGE_DURATION_MODE, value "T" pinned by the handlers.py
doctest and the keys.py BINDINGS entry ("T", "change duration mode"). -/
def CHANGE_DURATION_MODE : String := "T"

/-- keys.py constant CHANGE_DISPLAY_MODE, value "v" pinned by the handlers.py
doctest and the keys.py BINDINGS entry ("v", "change display mode"). -/
def CHANGE_DISPLAY_MODE : String := "v"

/-! ### types.py enums -/

/-- types.py QueryMode (values "running queries"/"waiting queries"/"blocking
queries"). -/
inductive QueryMode
  | activities
  | waiting
  | blocking
deriving DecidableEq, Repr

/-- types.py SortKey. -/
inductive SortKey
  | cpu
  | mem
  | read
  | write
  | duration
deriving DecidableEq, Repr

/-- types.py SortKey.default(): the duration key. -/
def SortKey.default : SortKey := SortKey.duration

/-- types.py DurationMode (IntEnum query=1, transaction=2, backend=3). -/
inductive DurationMode
  | query
  | transaction
  | backend
deriving DecidableEq, Repr

/-- The IntEnum value of a DurationMode member. -/
def DurationMode.value : DurationMode → ℕ
  | .query => 1
  | .transaction => 2
  | .backend => 3

/-- DurationMode(v): member of DurationMode with the given value.  The
fallthrough line is dead in this development: it is only reached for values
outside 1..3, which enum_next never produces. -/
def DurationMode.ofValue : ℕ → DurationMode
  | 1 => .query
  | 2 => .transaction
  | 3 => .backend
  | _ => .query

/-- types.py QueryDisplayMode (IntEnum truncate=1, wrap_noindent=2, wrap=3). -/
inductive QueryDisplayMode
  | truncate
  | wrap_noindent
  | wrap
deriving DecidableEq, Repr

/-- The IntEnum value of a QueryDisplayMode member. -/
def QueryDisplayMode.value : QueryDisplayMode → ℕ
  | .truncate => 1
  | .wrap_noindent => 2
  | .wrap => 3

/-- QueryDisplayMode(v); the fallthrough line is dead as in
DurationMode.ofValue. -/
def QueryDisplayMode.ofValue : ℕ → QueryDisplayMode
  | 1 => .truncate
  | 2 => .wrap_noindent
  | 3 => .wrap
  | _ => .truncate

/-- types.py enum_next instantiated at DurationMode:
e.__class__((e.value % max(e.__class__)) + 1), where max(DurationMode) = 3. -/
def enum_next_duration_mode (e : DurationMode) : DurationMode :=
  DurationMode.ofValue ((e.value % 3) + 1)

/-- types.py enum_next instantiated at QueryDisplayMode (max value 3). -/
def enum_next_query_display_mode (e : QueryDisplayMode) : QueryDisplayMode :=
  QueryDisplayMode.ofValue ((e.value % 3) + 1)

/-! ### handlers.py -/

/-- handlers.py refresh_time(key, value, minimum, maximum).  A keystroke is an
Option String (None when the poll timed out); raising ValueError(key) is
modelled as Except.error key. -/
def refresh_time (key : Option String) (value minimum maximum : ℚ) :
    Except (Option String) ℚ :=
  if key = some REFRESH_TIME_DECREASE then
    Except.ok (max (value - 1) minimum)
  else if key = some REFRESH_TIME_INCREASE then
    Except.ok (min ((pyInt (value + 1) : ℚ)) maximum)
  else
    Except.error key

/-- Iterated refresh-time keystrokes with the default bounds minimum=0.5,
maximum=5 (the call site in ui.py passes no explicit bounds).  An unrecognized
key raises, which aborts the whole run (none). -/
def apply_refresh_keys : List String → ℚ → Option ℚ
  | [], v => some v
  | k :: ks, v =>
    match refresh_time (some k) v (1/2) 5 with
    | Except.ok v2 => apply_refresh_keys ks v2
    | Except.error _ => none

/-- handlers.py duration_mode(key, mode). -/
def duration_mode_handler (key : String) (mode : DurationMode) : DurationMode :=
  if key = CHANGE_DURATION_MODE then enum_next_duration_mode mode else mode

/-- handlers.py verbose_mode(key, mode). -/
def verbose_mode_handler (key : String) (mode : QueryDisplayMode) :
    QueryDisplayMode :=
  if key = CHANGE_DISPLAY_MODE then enum_next_query_display_mode mode else mode

/-- handlers.py sort_key_for(key, query_mode, is_local): falls back to
SortKey.default() unless the mode is activities and sampling is local, then
looks the key up in the sort-key dict (dict literal order as in the source). -/
def sort_key_for (key : String) (query_mode : QueryMode) (is_local : Bool) :
    Option SortKey :=
  if ¬ is_local = true ∨ query_mode ≠ QueryMode.activities then
    some SortKey.default
  else
    List.lookup key
      [(SORTBY_CPU, SortKey.cpu), (SORTBY_MEM, SortKey.mem),
       (SORTBY_READ, SortKey.read), (SORTBY_TIME, SortKey.duration),
       (SORTBY_WRITE, SortKey.write)]

/-! ### views.py string helpers and format_duration -/

/-- Python str.ljust(w): pad on the right with spaces up to width w. -/
def ljustN (s : String) (w : ℕ) : String := s.pushn ' ' (w - s.length)

/-- Python str.zfill(w) for a digit string (also covers the "%.6d" padding
used for microseconds): pad on the left with zeros up to width w. -/
def zfill (s : String) (w : ℕ) : String :=
  String.mk (List.replicate (w - s.length) '0') ++ s

/-- Round a rational to the nearest integer, ties to even: the rounding both
Python float formatting and datetime.timedelta apply to fractional parts. -/
def rho (q : ℚ) : ℤ :=
  let f := Int.floor q
  let r := q - (f : ℚ)
  if r < 1/2 then f
  else if 1/2 < r then f + 1
  else if f % 2 = 0 then f else f + 1

/-- The Python fixed-point format f-string with 6 decimals applied to a
nonnegative value, as used for sub-second durations in
views.format_duration. -/
def fmt6 (q : ℚ) : String :=
  let n : ℤ := rho (q * 1000000)
  toString (n / 1000000) ++ "." ++ zfill (toString ((n % 1000000).toNat)) 6

/-- views.format_duration middle band: datetime.timedelta(seconds=duration)
holds the value as integer microseconds (rounded half to even); the source
prints minutes and seconds of the seconds component zero-filled to 2 and the
first two digits of the 6-digit microsecond field.  In this band
1 <= duration < 60000 < 86400, so the timedelta has no day component. -/
def formatMMSS (d : ℚ) : String :=
  let tm : ℤ := rho (d * 1000000)
  let secs : ℕ := (tm / 1000000).toNat
  let mic : String := zfill (toString ((tm % 1000000).toNat)) 6
  zfill (toString (secs / 60)) 2 ++ ":" ++ zfill (toString (secs % 60)) 2
    ++ "." ++ mic.take 2

/-- views.py format_duration(duration): rendered elapsed-time string and the
LINE_COLORS key used to display it. -/
def format_duration : Option ℚ → String × String
  | none => (ljustN "N/A" 8, "time_green")
  | some duration =>
    if duration < 1 then
      (fmt6 (if duration < 0 then 0 else duration), "time_green")
    else if duration < 60000 then
      (formatMMSS duration, if duration < 3 then "time_yellow" else "time_red")
    else
      (toString (pyInt (duration / 3600)) ++ " h", "time_red")

/-! ### types.py Column template validation -/

/-- Python value.count for the one-character needle used by the validator:
the number of percent characters in the string. -/
def percent_count (s : String) : ℕ := (s.toList.filter (fun c => c = '%')).length

/-- types.py Column template_h validator: construction succeeds (true) iff
value.count of the percent character equals 1, otherwise ValueError is
raised (false). -/
def template_h_valid (s : String) : Bool := percent_count s = 1

/-- Spec-side printf-template scanner step.  State: substitution placeholders
seen, escaped double-percents seen, and whether the previous character was a
percent still waiting for its conversion character. -/
def spec_scan_step : ℕ × ℕ × Bool → Char → ℕ × ℕ × Bool
  | (p, e, pending), c =>
    if pending then
      if c = '%' then (p, e + 1, false) else (p + 1, e, false)
    else if c = '%' then (p, e, true) else (p, e, false)

/-- Spec-side reading of a template: (number of substitution placeholders,
number of escaped percents, whether the template ends in a bare percent that
is not a placeholder).  This follows the specification's words — a
placeholder is a percent followed by a conversion character, a double percent
is an escape, not a placeholder — and is compared against the source
validator template_h_valid. -/
def placeholder_scan (s : String) : ℕ × ℕ × Bool :=
  s.toList.foldl spec_scan_step (0, 0, false)

/-! ### views.py line limiting and the screen layout -/

/-- The line_counter/limit machinery of views.py.  A lines_counter built by
itertools.count(n, -1) is represented by the next value it will yield.  The
limit wrapper prints each line the view yields and stops after the line for
which next(counter) returns exactly 1.  Returns the printed lines and the
counter state left for the next limited view. -/
def limitedRun : List String → ℤ → List String × ℤ
  | [], s => ([], s)
  | l :: ls, s =>
    if s = 1 then ([l], s - 1)
    else
      let r := limitedRun ls (s - 1)
      (l :: r.1, r.2)

/-- Lines yielded by views.header: one host line, one Size/TPS/connections
row, and three more rows (memory, swap/read, load/write) only when host
system stats are available.  Line contents are irrelevant to the height
bound and abbreviated. -/
def headerLines (system_info : Bool) : List String :=
  ["pg-host-line", "size-tps-connections-row"] ++
    (if system_info then ["memory-row", "swap-read-row", "load-write-row"]
     else [])

/-- views.query_mode yields exactly one banner line (PAUSE or the mode name). -/
def query_mode_lines : List String := ["banner-line"]

/-- views.columns_header yields exactly one line of column titles. -/
def columns_header_lines : List String := ["columns-header-line"]

/-- views.screen without the final footer: initializes the shared counter to
term.height - 1 and runs header, query_mode, columns_header and
processes_rows through the limit wrapper with that shared counter.  rows is
the flat stream of lines processes_rows yields (each worker contributing its
splitlines), covering any worker-list length and any wrap mode. -/
def screenLines (system_info : Bool) (rows : List String) (height : ℕ) :
    List String :=
  let top_height : ℤ := (height : ℤ) - 1
  let r1 := limitedRun (headerLines system_info) top_height
  let r2 := limitedRun query_mode_lines r1.2
  let r3 := limitedRun columns_header_lines r2.2
  let r4 := limitedRun rows r3.2
  r1.1 ++ r2.1 ++ r3.1 ++ r4.1

/-! ### activities.py update_processes_local -/

/-- The psutil io_counters snapshot carried in a SystemProcess: cumulative
read and write byte counters. -/
structure PIOCounters where
  read_bytes : ℤ
  write_bytes : ℤ
deriving DecidableEq, Repr

/-- types.py SystemProcess, restricted to the fields
activities.update_processes_local reads or writes for the I/O claims:
the cumulative counters, the sample timestamp io_time and the computed
per-worker byte-rate fields read_delta/write_delta. -/
structure SystemProcess where
  io_counters : PIOCounters
  io_time : ℚ
  read_delta : ℚ
  write_delta : ℚ
deriving DecidableEq, Repr

/-- The per-worker record handled by update_processes_local; only the extras
SystemSample participates in the I/O claims. -/
structure Process where
  extras : SystemProcess
deriving DecidableEq, Repr

/-- types.py ActivityProcess restricted to the identifier and the rate fields
the I/O claims are about. -/
structure ActivityProcess where
  pid : ℕ
  read : ℚ
  write : ℚ
deriving DecidableEq, Repr

/-- Per-worker read byte rate computed for a worker with a previous sample:
(new cumulative read_bytes - old cumulative read_bytes) / (now - old io_time),
as assigned to proc.extras.read_delta. -/
def read_rate (oldp newp : Process) (now : ℚ) : ℚ :=
  ((newp.extras.io_counters.read_bytes - oldp.extras.io_counters.read_bytes : ℤ) : ℚ)
    / (now - oldp.extras.io_time)

/-- Per-worker write byte rate, as assigned to proc.extras.write_delta. -/
def write_rate (oldp newp : Process) (now : ℚ) : ℚ :=
  ((newp.extras.io_counters.write_bytes - oldp.extras.io_counters.write_bytes : ℤ) : ℚ)
    / (now - oldp.extras.io_time)

/-- The loop of activities.update_processes_local over new_processes (a dict
in insertion order), threading the accumulators read_bytes_delta,
write_bytes_delta, pids and procs.  For a pid with a previous entry the
stored sample ratchets forward (new counters, timestamp now) and its fresh
read_delta/write_delta are added to the global byte totals; for a new pid the
incoming record is used as is.  The pid is appended to pids unless already
present, and an ActivityProcess carrying the record's rate fields is
appended to procs. -/
def upl_go (ps : List (ℕ × Process)) (now : ℚ) :
    List (ℕ × Process) → ℚ → ℚ → List ℕ → List ActivityProcess →
    ℚ × ℚ × List ℕ × List ActivityProcess
  | [], rbd, wbd, pids, procs => (rbd, wbd, pids, procs)
  | e :: rest, rbd, wbd, pids, procs =>
    match List.lookup e.1 ps with
    | some oldp =>
      upl_go ps now rest (rbd + read_rate oldp e.2 now)
        (wbd + write_rate oldp e.2 now)
        (if e.1 ∈ pids then pids else pids ++ [e.1])
        (procs ++ [ActivityProcess.mk e.1 (read_rate oldp e.2 now)
          (write_rate oldp e.2 now)])
    | none =>
      upl_go ps now rest rbd wbd
        (if e.1 ∈ pids then pids else pids ++ [e.1])
        (procs ++ [ActivityProcess.mk e.1 e.2.extras.read_delta
          e.2.extras.write_delta])

/-- activities.update_processes_local(processes, new_processes, fs_blocksize):
returns ((read_bytes_delta, write_bytes_delta, read_count_delta,
write_count_delta), pids, procs).  The count deltas are int(bytes_delta /
fs_blocksize) accumulated only under the strict positivity guards of the
source. -/
def update_processes_local (ps nps : List (ℕ × Process))
    (fs_blocksize now : ℚ) :
    (ℚ × ℚ × ℤ × ℤ) × List ℕ × List ActivityProcess :=
  let r := upl_go ps now nps 0 0 [] []
  let rcd : ℤ := if 0 < r.1 then pyInt (r.1 / fs_blocksize) else 0
  let wcd : ℤ := if 0 < r.2.1 then pyInt (r.2.1 / fs_blocksize) else 0
  ((r.1, r.2.1, rcd, wcd), r.2.2.1, r.2.2.2)

/-- Per-entry contribution to the global read byte total: the per-worker rate
for a matched pid, nothing for a pid without a previous sample. -/
def read_rate_of (ps : List (ℕ × Process)) (now : ℚ) (e : ℕ × Process) : ℚ :=
  match List.lookup e.1 ps with
  | some oldp => read_rate oldp e.2 now
  | none => 0

/-- Per-entry contribution to the global write byte total. -/
def write_rate_of (ps : List (ℕ × Process)) (now : ℚ) (e : ℕ × Process) : ℚ :=
  match List.lookup e.1 ps with
  | some oldp => write_rate oldp e.2 now
  | none => 0

/-- The row emitted for one entry of new_processes: rate fields from the
snapshot diff for a matched pid, the incoming record's own rate fields for an
unmatched one. -/
def upl_emit (ps : List (ℕ × Process)) (now : ℚ) (e : ℕ × Process) :
    ActivityProcess :=
  match List.lookup e.1 ps with
  | some oldp =>
    ActivityProcess.mk e.1 (read_rate oldp e.2 now) (write_rate oldp e.2 now)
  | none => ActivityProcess.mk e.1 e.2.extras.read_delta e.2.extras.write_delta

/-- The row the claim expects: snapshot-diff rates for a matched pid, zero
rate fields for a worker with no previous sample. -/
def expected_row (ps : List (ℕ × Process)) (now : ℚ) (e : ℕ × Process) :
    ActivityProcess :=
  match List.lookup e.1 ps with
  | some oldp =>
    ActivityProcess.mk e.1 (read_rate oldp e.2 now) (write_rate oldp e.2 now)
  | none => ActivityProcess.mk e.1 0 0

/-! ### ui.py main loop: the peak-IOPS value -/

/-- Modelled from the spec: activities.update_max_iops is called by ui.main
but is absent from the activities.py snapshot.  Per the specification, the
session-lifetime peak-IOPS watermark is updated to
max(previous_watermark, read_ops + write_ops) each cycle. -/
def update_max_iops (max_iops read_count_delta write_count_delta : ℕ) : ℕ :=
  max max_iops (read_count_delta + write_count_delta)

/-- The effect of one iteration of the ui.main while-loop on the max_iops
variable: the loop body first executes max_iops = 0 (the assignment sits
inside the while True block), then, only on the not-in-help, not-paused,
activities-mode, local path, runs
max_iops = activities.update_max_iops(max_iops, read_count_delta,
write_count_delta).  prev is the value the variable held when the iteration
started. -/
def cycle_max_iops (_prev : ℕ) (in_help in_pause is_local : Bool)
    (qm : QueryMode) (read_count_delta write_count_delta : ℕ) : ℕ :=
  let max_iops := 0
  if ¬ in_help = true ∧ ¬ in_pause = true ∧ qm = QueryMode.activities
      ∧ is_local = true then
    update_max_iops max_iops read_count_delta write_count_delta
  else
    max_iops

/-- Previous-cycle sample map for the rate-scenario witness: worker 7 with
cumulative read 1000, write 500, sampled at time 0. -/
def c1_old : List (ℕ × Process) :=
  [(7, Process.mk (SystemProcess.mk (PIOCounters.mk 1000 500) 0 0 0))]

/-- Fresh sample set for the rate-scenario witness: worker 7 with cumulative
read 2000, write 500, polled at wall time 1. -/
def c1_new : List (ℕ × Process) :=
  [(7, Process.mk (SystemProcess.mk (PIOCounters.mk 2000 500) 1 0 0))]

/-- Previous-cycle sample map for the block-size scenario: worker 1 with zero
counters at time 0. -/
def c4_old : List (ℕ × Process) :=
  [(1, Process.mk (SystemProcess.mk (PIOCounters.mk 0 0) 0 0 0))]

/-- Fresh sample set for the block-size scenario: worker 1 read 8192 bytes
between the samples, polled at wall time 1, giving a global read byte rate of
8192. -/
def c4_new : List (ℕ × Process) :=
  [(1, Process.mk (SystemProcess.mk (PIOCounters.mk 8192 0) 1 0 0))]

/-! ### Helper lemmas -/

theorem pyInt_of_nonneg (q : ℚ) (h : 0 ≤ q) : pyInt q = Int.floor q := by
  unfold pyInt
  rw [if_neg (not_lt.mpr h)]

theorem pyInt_succ_lower (v : ℚ) (h : 1/2 ≤ v) :
    (1 : ℚ) ≤ ((pyInt (v + 1) : ℤ) : ℚ) := by
  have h0 : (0:ℚ) ≤ v + 1 := by linarith
  rw [pyInt_of_nonneg _ h0]
  have h1 : (1 : ℤ) ≤ Int.floor (v + 1) := by
    rw [Int.le_floor]
    push_cast
    linarith
  exact_mod_cast h1

theorem refresh_time_plus (v mn mx : ℚ) :
    refresh_time (some REFRESH_TIME_INCREASE) v mn mx
      = Except.ok (min ((pyInt (v + 1) : ℤ) : ℚ) mx) := by
  unfold refresh_time
  rw [if_neg (by decide), if_pos rfl]

theorem refresh_time_minus (v mn mx : ℚ) :
    refresh_time (some REFRESH_TIME_DECREASE) v mn mx
      = Except.ok (max (v - 1) mn) := by
  unfold refresh_time
  rw [if_pos rfl]

/-! ### Claim theorems -/

/-- C2: the claim says the peak-IOPS watermark is non-decreasing across
poll-render cycles and is updated to max(previous, read_ops + write_ops) each
cycle.  The ui.main loop body, however, re-executes max_iops = 0 at the top
of every iteration of while True, so a cycle with operation deltas (5, 0)
followed by a cycle with deltas (0, 0) leaves the watermark at 0: it
decreases, and it differs from max(previous, read_ops + write_ops) = 5.
Plain-loop cycles (help, pause and non-local paths included) are modelled by
cycle_max_iops; both evaluations below are on the local activities path. -/
theorem max_iops_reset_each_cycle :
    cycle_max_iops 0 false false true QueryMode.activities 5 0 = 5
    ∧ cycle_max_iops 5 false false true QueryMode.activities 0 0 = 0
    ∧ cycle_max_iops 5 false false true QueryMode.activities 0 0
        < cycle_max_iops 0 false false true QueryMode.activities 5 0
    ∧ cycle_max_iops 5 false false true QueryMode.activities 0 0
        ≠ max 5 (0 + 0) := by
  decide

/-- C5: any sequence of refresh-interval increase/decrease keystrokes keeps
the interval within the bounds 0.5 and 5 inclusive, increasing twice from 1
gives exactly 3, and decreasing twice from 1 gives exactly 0.5. -/
theorem refresh_time_bounds_and_steps :
    (∀ (ks : List String) (v : ℚ),
        (∀ k ∈ ks, k = REFRESH_TIME_INCREASE ∨ k = REFRESH_TIME_DECREASE) →
        1/2 ≤ v → v ≤ 5 →
        ∃ r, apply_refresh_keys ks v = some r ∧ 1/2 ≤ r ∧ r ≤ 5)
    ∧ apply_refresh_keys [REFRESH_TIME_INCREASE, REFRESH_TIME_INCREASE] 1
        = some 3
    ∧ apply_refresh_keys [REFRESH_TIME_DECREASE, REFRESH_TIME_DECREASE] 1
        = some (1/2) := by
  refine ⟨?_, ?_, ?_⟩
  case refine_2 =>
    simp [apply_refresh_keys, refresh_time, pyInt, REFRESH_TIME_INCREASE,
      REFRESH_TIME_DECREASE]
    norm_num
  case refine_3 =>
    simp [apply_refresh_keys, refresh_time, pyInt, REFRESH_TIME_DECREASE,
      REFRESH_TIME_INCREASE]
  intro ks
  induction ks with
  | nil =>
    intro v _ h1 h2
    exact ⟨v, rfl, h1, h2⟩
  | cons k ks ih =>
    intro v hk h1 h2
    rcases hk k (List.mem_cons_self k ks) with hkk | hkk
    · subst hkk
      have hb1 : (1:ℚ)/2 ≤ min ((pyInt (v + 1) : ℤ) : ℚ) 5 :=
        le_min (le_trans (by norm_num) (pyInt_succ_lower v h1)) (by norm_num)
      have hb2 : min ((pyInt (v + 1) : ℤ) : ℚ) 5 ≤ 5 := min_le_right _ _
      obtain ⟨r, hr, hr1, hr2⟩ := ih (min ((pyInt (v + 1) : ℤ) : ℚ) 5)
        (fun k2 hk2 => hk k2 (List.mem_cons_of_mem _ hk2)) hb1 hb2
      refine ⟨r, ?_, hr1, hr2⟩
      simp only [apply_refresh_keys, refresh_time_plus]
      exact hr
    · subst hkk
      have hb1 : (1:ℚ)/2 ≤ max (v - 1) (1/2) := le_max_right _ _
      have hb2 : max (v - 1) (1/2) ≤ 5 := max_le (by linarith) (by norm_num)
      obtain ⟨r, hr, hr1, hr2⟩ := ih (max (v - 1) (1/2))
        (fun k2 hk2 => hk k2 (List.mem_cons_of_mem _ hk2)) hb1 hb2
      refine ⟨r, ?_, hr1, hr2⟩
      simp only [apply_refresh_keys, refresh_time_minus]
      exact hr

/-- C5 witness: one increase keystroke from interval 2 satisfies the
hypotheses and lands in bounds. -/
theorem refresh_time_bounds_and_steps_witness :
    (∀ k ∈ [REFRESH_TIME_INCREASE],
        k = REFRESH_TIME_INCREASE ∨ k = REFRESH_TIME_DECREASE)
    ∧ ((1:ℚ)/2 ≤ 2 ∧ (2:ℚ) ≤ 5)
    ∧ ∃ r, apply_refresh_keys [REFRESH_TIME_INCREASE] 2 = some r
        ∧ 1/2 ≤ r ∧ r ≤ 5 :=
  ⟨by decide, ⟨by norm_num, by norm_num⟩,
   refresh_time_bounds_and_steps.1 [REFRESH_TIME_INCREASE] 2 (by decide)
     (by norm_num) (by norm_num)⟩

/-- C6: whenever the query mode is blocking or waiting, or local sampling is
unavailable, sort_key_for resolves every sort keystroke to the duration
key. -/
theorem sort_key_falls_back_to_duration (key : String) (qm : QueryMode)
    (is_local : Bool)
    (h : qm = QueryMode.blocking ∨ qm = QueryMode.waiting ∨ is_local = false) :
    sort_key_for key qm is_local = some SortKey.duration := by
  unfold sort_key_for
  rcases h with h | h | h
  · subst h
    rw [if_pos (Or.inr (by decide))]
    rfl
  · subst h
    rw [if_pos (Or.inr (by decide))]
    rfl
  · subst h
    rw [if_pos (Or.inl (by decide))]
    rfl

/-- C6 witness: the memory sort keystroke in blocking mode on a local
connection resolves to the duration key. -/
theorem sort_key_falls_back_to_duration_witness :
    (QueryMode.blocking = QueryMode.blocking
      ∨ QueryMode.blocking = QueryMode.waiting ∨ true = false)
    ∧ sort_key_for "m" QueryMode.blocking true = some SortKey.duration :=
  ⟨Or.inl rfl,
   sort_key_falls_back_to_duration "m" QueryMode.blocking true (Or.inl rfl)⟩

/-- C7: cycling the duration mode or the query display mode returns to the
original member after exactly three advances (the member count of each
enumeration) and after no smaller positive number of advances. -/
theorem mode_cycling_period_three :
    ∀ (d : DurationMode) (v : QueryDisplayMode),
      (enum_next_duration_mode (enum_next_duration_mode
          (enum_next_duration_mode d)) = d
        ∧ enum_next_duration_mode d ≠ d
        ∧ enum_next_duration_mode (enum_next_duration_mode d) ≠ d)
      ∧ (enum_next_query_display_mode (enum_next_query_display_mode
          (enum_next_query_display_mode v)) = v
        ∧ enum_next_query_display_mode v ≠ v
        ∧ enum_next_query_display_mode (enum_next_query_display_mode v) ≠ v) := by
  intro d v
  cases d <;> cases v <;> decide

/-- C10: for every input key other than the increase key and the decrease key,
None included, refresh_time raises ValueError(key) rather than returning an
interval. -/
theorem refresh_time_unknown_key_errors (key : Option String) (v mn mx : ℚ)
    (h1 : key ≠ some REFRESH_TIME_DECREASE)
    (h2 : key ≠ some REFRESH_TIME_INCREASE) :
    refresh_time key v mn mx = Except.error key := by
  unfold refresh_time
  rw [if_neg h1, if_neg h2]

/-- C10 witness: the doctest key and the timeout sentinel both raise. -/
theorem refresh_time_unknown_key_errors_witness :
    (some "=" ≠ some REFRESH_TIME_DECREASE)
    ∧ (some "=" ≠ some REFRESH_TIME_INCREASE)
    ∧ refresh_time (some "=") 42 (1/2) 5 = Except.error (some "=")
    ∧ refresh_time none 2 (1/2) 5 = Except.error none :=
  ⟨by decide, by decide,
   refresh_time_unknown_key_errors (some "=") 42 (1/2) 5 (by decide) (by decide),
   refresh_time_unknown_key_errors none 2 (1/2) 5 (by decide) (by decide)⟩

theorem rho_zero : rho 0 = 0 := by
  unfold rho
  norm_num

theorem fmt6_zero : fmt6 0 = "0.000000" := by
  unfold fmt6
  rw [show ((0:ℚ) * 1000000) = 0 by norm_num, rho_zero]
  decide

/-- C8: the duration formatter maps an absent duration to the padded N/A
string with the green tier; a negative duration is clamped to zero and
rendered 0.000000 green (in particular -0.5); a duration in [0, 1) renders as
the six-decimal fractional-seconds string, green; a duration in [1, 60000)
renders in MM:SS.ff form with the yellow tier below 3 seconds and the red
(critical) tier above; any duration at least 60000 renders as the floored
hour count followed by " h" with the red tier (in particular 70000 gives
"19 h"). -/
theorem format_duration_bands :
    format_duration none = ("N/A     ", "time_green")
    ∧ (∀ d : ℚ, d < 0 →
        format_duration (some d) = ("0.000000", "time_green"))
    ∧ format_duration (some (-1/2)) = ("0.000000", "time_green")
    ∧ format_duration (some 70000) = ("19 h", "time_red")
    ∧ (∀ d : ℚ, 0 ≤ d → d < 1 →
        format_duration (some d) = (fmt6 d, "time_green"))
    ∧ (∀ d : ℚ, 1 ≤ d → d < 60000 →
        format_duration (some d)
          = (formatMMSS d, if d < 3 then "time_yellow" else "time_red"))
    ∧ (∀ d : ℚ, 60000 ≤ d →
        format_duration (some d)
          = (toString (pyInt (d / 3600)) ++ " h", "time_red")) := by
  refine ⟨?_, ?_, ?_, ?_, ?_, ?_, ?_⟩
  · decide
  · intro d hd
    simp only [format_duration]
    rw [if_pos (by linarith : d < 1), if_pos hd, fmt6_zero]
  · simp only [format_duration]
    rw [if_pos (by norm_num : (-1/2:ℚ) < 1), if_pos (by norm_num : (-1/2:ℚ) < 0),
      fmt6_zero]
  · simp only [format_duration]
    rw [if_neg (by norm_num : ¬ (70000:ℚ) < 1),
      if_neg (by norm_num : ¬ (70000:ℚ) < 60000),
      pyInt_of_nonneg _ (by norm_num : (0:ℚ) ≤ 70000 / 3600),
      show Int.floor ((70000:ℚ) / 3600) = 19 by norm_num]
    decide
  · intro d h0 h1
    simp only [format_duration]
    rw [if_pos h1, if_neg (not_lt.mpr h0)]
  · intro d h1 h2
    simp only [format_duration]
    rw [if_neg (not_lt.mpr h1), if_pos h2]
  · intro d h
    simp only [format_duration]
    rw [if_neg (by linarith : ¬ d < 1), if_neg (not_lt.mpr h)]

/-- C8 witness: a negative duration and a duration over 60000 seconds,
through the band theorem. -/
theorem format_duration_bands_witness :
    ((-1:ℚ) < 0 ∧ format_duration (some (-1)) = ("0.000000", "time_green"))
    ∧ ((60000:ℚ) ≤ 72000
        ∧ format_duration (some 72000)
            = (toString (pyInt ((72000:ℚ) / 3600)) ++ " h", "time_red")) :=
  ⟨⟨by norm_num, format_duration_bands.2.1 (-1) (by norm_num)⟩,
   ⟨by norm_num, format_duration_bands.2.2.2.2.2.2 72000 (by norm_num)⟩⟩

theorem spec_scan_invariant :
    ∀ (l : List Char) (p e : ℕ) (pend : Bool),
      (l.foldl spec_scan_step (p, e, pend)).1
          + 2 * (l.foldl spec_scan_step (p, e, pend)).2.1
          + (if (l.foldl spec_scan_step (p, e, pend)).2.2 then 1 else 0)
        = p + 2 * e + (if pend then 1 else 0)
          + (l.filter (fun c => c = '%')).length := by
  intro l
  induction l with
  | nil =>
    intro p e pend
    simp
  | cons c l ih =>
    intro p e pend
    by_cases hp : pend <;> by_cases hc : c = '%' <;>
      simp [spec_scan_step, hp, hc, ih] <;> omega

theorem percent_count_eq_scan (s : String) :
    percent_count s = (placeholder_scan s).1 + 2 * (placeholder_scan s).2.1
      + (if (placeholder_scan s).2.2 then 1 else 0) := by
  unfold percent_count placeholder_scan
  have h := spec_scan_invariant s.toList 0 0 false
  simpa using h.symm

/-- C9 counterexample: the template built of one placeholder followed by an
escaped percent contains exactly one substitution placeholder, yet Column
construction rejects it (the validator counts percent characters, of which
it has three). -/
theorem column_template_placeholder_counterexample :
    (placeholder_scan "%s %%").1 = 1 ∧ template_h_valid "%s %%" = false := by
  decide

/-- C9 (amended): Column construction succeeds exactly when the template
contains exactly one percent character; in terms of the spec-side template
reading, exactly when it holds one placeholder, no escaped percent and no
trailing bare percent, or no placeholder and no escape with a single
trailing bare percent.  Thus a template with exactly one placeholder plus an
escaped percent raises, and a template whose sole percent is a trailing
bare one is accepted. -/
theorem column_template_percent_count_characterization (s : String) :
    template_h_valid s = true
      ↔ (((placeholder_scan s).1 = 1 ∧ (placeholder_scan s).2.1 = 0
            ∧ (placeholder_scan s).2.2 = false)
        ∨ ((placeholder_scan s).1 = 0 ∧ (placeholder_scan s).2.1 = 0
            ∧ (placeholder_scan s).2.2 = true)) := by
  have hpc := percent_count_eq_scan s
  simp only [template_h_valid, decide_eq_true_eq]
  rw [hpc]
  rcases hb : (placeholder_scan s).2.2 <;> simp [hb] <;> omega

theorem limitedRun_of_pos (ls : List String) :
    ∀ (s : ℤ), 1 ≤ s →
      ((limitedRun ls s).1.length : ℤ) = min (ls.length : ℤ) s
      ∧ (limitedRun ls s).2 = s - min (ls.length : ℤ) s := by
  induction ls with
  | nil =>
    intro s hs
    constructor
    · simp [limitedRun]
      omega
    · simp [limitedRun]
      omega
  | cons l ls ih =>
    intro s hs
    by_cases h1 : s = 1
    · subst h1
      constructor
      · simp [limitedRun]
      · simp [limitedRun]
    · have hs2 : 1 ≤ s - 1 := by omega
      obtain ⟨ih1, ih2⟩ := ih (s - 1) hs2
      constructor
      · simp [limitedRun, h1]
        omega
      · simp [limitedRun, h1]
        omega

/-- C3 counterexample: at terminal height 1 the shared counter starts at 0,
the limit wrapper never sees the value 1, and a full redraw with an empty
worker list emits all 4 fixed lines, exceeding the claimed bound of
height - 1 = 0 lines. -/
theorem screen_height_bound_fails_at_height_one :
    (screenLines false [] 1).length = 4
    ∧ ¬ ((screenLines false [] 1).length ≤ 1 - 1) := by
  decide

/-- C3 (amended): one full screen redraw emits at most height - 1 lines
whenever height - 1 exceeds the header line count by at least 3, that is
whenever the shared counter is still positive when the per-worker rows block
starts.  For smaller terminals the cap can fail: the counter stops emission
only within the block in which it reaches the limit, and a block that starts
with an exhausted counter is emitted in full. -/
theorem screen_height_bound_when_counter_positive (si : Bool)
    (rows : List String) (h : ℕ)
    (hh : (headerLines si).length + 4 ≤ h) :
    (screenLines si rows h).length ≤ h - 1 := by
  have hH : 2 ≤ (headerLines si).length := by
    cases si <;> simp [headerLines]
  obtain ⟨a1, b1⟩ := limitedRun_of_pos (headerLines si) ((h:ℤ) - 1) (by omega)
  obtain ⟨a2, b2⟩ := limitedRun_of_pos query_mode_lines
    (limitedRun (headerLines si) ((h:ℤ) - 1)).2 (by rw [b1]; omega)
  obtain ⟨a3, b3⟩ := limitedRun_of_pos columns_header_lines
    (limitedRun query_mode_lines
      (limitedRun (headerLines si) ((h:ℤ) - 1)).2).2
    (by rw [b2, b1]; simp [query_mode_lines]; omega)
  obtain ⟨a4, b4⟩ := limitedRun_of_pos rows
    (limitedRun columns_header_lines
      (limitedRun query_mode_lines
        (limitedRun (headerLines si) ((h:ℤ) - 1)).2).2).2
    (by rw [b3, b2, b1]; simp [query_mode_lines, columns_header_lines]; omega)
  simp only [screenLines, List.length_append]
  simp only [query_mode_lines, columns_header_lines, List.length_cons,
    List.length_nil] at a2 a3 a4 b2 b3 ⊢
  omega

/-- C3 witness for the amended bound: height 9, no host stats, three worker
rows. -/
theorem screen_height_bound_when_counter_positive_witness :
    (headerLines false).length + 4 ≤ 9
    ∧ (screenLines false ["row-1", "row-2", "row-3"] 9).length ≤ 9 - 1 :=
  ⟨by decide,
   screen_height_bound_when_counter_positive false ["row-1", "row-2", "row-3"]
     9 (by decide)⟩

theorem upl_go_spec (ps : List (ℕ × Process)) (now : ℚ) :
    ∀ (nps : List (ℕ × Process)) (rbd wbd : ℚ) (pids : List ℕ)
      (procs : List ActivityProcess),
      (upl_go ps now nps rbd wbd pids procs).1
          = rbd + (nps.map (read_rate_of ps now)).sum
      ∧ (upl_go ps now nps rbd wbd pids procs).2.1
          = wbd + (nps.map (write_rate_of ps now)).sum
      ∧ (upl_go ps now nps rbd wbd pids procs).2.2.2
          = procs ++ nps.map (upl_emit ps now) := by
  intro nps
  induction nps with
  | nil =>
    intro rbd wbd pids procs
    simp [upl_go]
  | cons e rest ih =>
    intro rbd wbd pids procs
    rcases hl : List.lookup e.1 ps with _ | oldp
    · obtain ⟨i1, i2, i3⟩ := ih rbd wbd
        (if e.1 ∈ pids then pids else pids ++ [e.1])
        (procs ++ [ActivityProcess.mk e.1 e.2.extras.read_delta
          e.2.extras.write_delta])
      refine ⟨?_, ?_, ?_⟩
      · simp only [upl_go, hl]
        rw [i1]
        simp [read_rate_of, hl]
      · simp only [upl_go, hl]
        rw [i2]
        simp [write_rate_of, hl]
      · simp only [upl_go, hl]
        rw [i3]
        simp [upl_emit, hl]
    · obtain ⟨i1, i2, i3⟩ := ih (rbd + read_rate oldp e.2 now)
        (wbd + write_rate oldp e.2 now)
        (if e.1 ∈ pids then pids else pids ++ [e.1])
        (procs ++ [ActivityProcess.mk e.1 (read_rate oldp e.2 now)
          (write_rate oldp e.2 now)])
      refine ⟨?_, ?_, ?_⟩
      · simp only [upl_go, hl]
        rw [i1]
        simp [read_rate_of, hl, add_assoc]
      · simp only [upl_go, hl]
        rw [i2]
        simp [write_rate_of, hl, add_assoc]
      · simp only [upl_go, hl]
        rw [i3]
        simp [upl_emit, hl]

/-- C1: for every worker whose identifier has a previous SystemSample, the
snapshot-diff engine emits its read and write byte rates as (new cumulative
bytes - old cumulative bytes) divided by the wall time elapsed since the
previous sample's timestamp, and the global byte totals are the sums of
exactly these per-worker rates; a worker with no previous sample is emitted
with zero rate fields (fresh samples carry zero deltas) and contributes
nothing to the global totals. -/
theorem update_processes_local_rates (ps nps : List (ℕ × Process))
    (bs now : ℚ)
    (hzero : ∀ e ∈ nps, e.2.extras.read_delta = 0 ∧ e.2.extras.write_delta = 0) :
    (update_processes_local ps nps bs now).2.2
        = nps.map (expected_row ps now)
    ∧ (update_processes_local ps nps bs now).1.1
        = (nps.map (read_rate_of ps now)).sum
    ∧ (update_processes_local ps nps bs now).1.2.1
        = (nps.map (write_rate_of ps now)).sum := by
  obtain ⟨h1, h2, h3⟩ := upl_go_spec ps now nps 0 0 [] []
  refine ⟨?_, ?_, ?_⟩
  · simp only [update_processes_local]
    rw [h3, List.nil_append]
    refine List.map_congr_left ?_
    intro e he
    unfold upl_emit expected_row
    rcases hl : List.lookup e.1 ps with _ | oldp
    · simp [(hzero e he).1, (hzero e he).2]
    · simp
  · simp only [update_processes_local]
    rw [h1, zero_add]
  · simp only [update_processes_local]
    rw [h2, zero_add]

/-- C1 witness: the spec scenario — elapsed 1 second, worker 7 read bytes
1000 to 2000 and write bytes 500 to 500 — through the rates theorem: read
rate 1000 bytes per second, write rate 0. -/
theorem update_processes_local_rates_witness :
    (∀ e ∈ c1_new, e.2.extras.read_delta = 0 ∧ e.2.extras.write_delta = 0)
    ∧ (update_processes_local c1_old c1_new 4096 1).1.1 = 1000
    ∧ (update_processes_local c1_old c1_new 4096 1).2.2
        = [ActivityProcess.mk 7 1000 0] := by
  have hz : ∀ e ∈ c1_new,
      e.2.extras.read_delta = 0 ∧ e.2.extras.write_delta = 0 := by
    intro e he
    simp only [c1_new, List.mem_singleton] at he
    subst he
    exact ⟨rfl, rfl⟩
  obtain ⟨ha, hb, _⟩ := update_processes_local_rates c1_old c1_new 4096 1 hz
  refine ⟨hz, ?_, ?_⟩
  · rw [hb]
    simp [c1_new, c1_old, read_rate_of, read_rate, List.lookup]
  · rw [ha]
    simp [c1_new, c1_old, expected_row, read_rate, write_rate, List.lookup]

/-- C4: the global read and write operation-count deltas each equal the
corresponding global byte-rate delta divided by the filesystem block size and
floored, accumulated only when that byte rate is strictly positive; a zero or
negative byte rate contributes zero operations. -/
theorem io_op_deltas_floor_of_byte_rate (ps nps : List (ℕ × Process))
    (bs now : ℚ) (hbs : 0 < bs) :
    (update_processes_local ps nps bs now).1.2.2.1
        = (if 0 < (update_processes_local ps nps bs now).1.1
           then Int.floor ((update_processes_local ps nps bs now).1.1 / bs)
           else 0)
    ∧ (update_processes_local ps nps bs now).1.2.2.2
        = (if 0 < (update_processes_local ps nps bs now).1.2.1
           then Int.floor ((update_processes_local ps nps bs now).1.2.1 / bs)
           else 0) := by
  simp only [update_processes_local]
  constructor
  · split_ifs with h
    · exact pyInt_of_nonneg _ (le_of_lt (div_pos h hbs))
    · rfl
  · split_ifs with h
    · exact pyInt_of_nonneg _ (le_of_lt (div_pos h hbs))
    · rfl

/-- C4 witness: block size 4096 is positive, and the spec scenario of a
positive global read byte rate of 8192 yields a read operation delta of
exactly 2 through the floor theorem. -/
theorem io_op_deltas_floor_of_byte_rate_witness :
    (0:ℚ) < 4096
    ∧ (update_processes_local c4_old c4_new 4096 1).1.2.2.1 = 2 := by
  refine ⟨by norm_num, ?_⟩
  have h := (io_op_deltas_floor_of_byte_rate c4_old c4_new 4096 1
    (by norm_num)).1
  rw [h]
  have hr : (update_processes_local c4_old c4_new 4096 1).1.1 = 8192 := by
    simp [update_processes_local, upl_go, c4_old, c4_new, read_rate,
      List.lookup]
  rw [hr, if_pos (by norm_num : (0:ℚ) < 8192)]
  norm_num

end PgActivity
